import Mathlib

/-!
Verification development for the 3-CyperpunkSettings repository.

The embedding covers the two algorithmic fragments of the code base:

1. the canvas particle simulation: the factory createParticleClass and the
   ParticleBackground burst logic (src/unnamed/part_001, lines 258-401);
2. the procedural audio engines: the AudioEngine class
   (src/unnamed/part_001, lines 27-143) and the useSoundEngine hook, which
   exists in two variants (src/index.js lines 9-65 and src/unnamed/part_002
   lines 9-64; the part_002 variant guards the constructor lookup).

Numbers are embedded as exact rationals.  The only irrational operation in
the source, dist = Math.sqrt(dx*dx + dy*dy) inside Particle.update, is
factored out: the update step receives the value d of that square root as an
explicit argument, and every theorem that depends on the pointer branch
constrains d with the predicate IsSqrt d (dx*dx + dy*dy), which pins d to
the exact nonnegative square root.  All other arithmetic in the source is
field arithmetic and is translated literally.
-/

namespace CyberpunkSettings

/-- Canvas dimensions, in pixels: canvas.width and canvas.height. -/
structure Canvas where
  width : ℚ
  height : ℚ
deriving DecidableEq

/-- The shared pointer state mouseRef.current = \x7b x, y, active \x7d. -/
structure Mouse where
  x : ℚ
  y : ℚ
  active : Bool
deriving DecidableEq

/-- One particle of the background field: position (x, y), velocity
(vx, vy), radius size and opacity alpha, as in the Particle class of
createParticleClass. -/
structure Particle where
  x : ℚ
  y : ℚ
  vx : ℚ
  vy : ℚ
  size : ℚ
  alpha : ℚ
deriving DecidableEq

/-- IsSqrt d s holds exactly when d is the nonnegative real square root of
s; it is how theorems tie the explicit distance argument of
Particle.updateWithDist to Math.sqrt(dx*dx + dy*dy) of the source. -/
def IsSqrt (d s : ℚ) : Prop := 0 ≤ d ∧ d * d = s

instance instDecIsSqrt (d s : ℚ) : Decidable (IsSqrt d s) :=
  inferInstanceAs (Decidable (0 ≤ d ∧ d * d = s))

/-- Particle.update() of the source (src/unnamed/part_001, lines 289-312),
with the value of dist = Math.sqrt(dx*dx + dy*dy) passed in as d:

    this.x += this.vx;  this.y += this.vy;
    if (mouseRef.current.active) \x7b
      const dx = this.x - mouseRef.current.x;
      const dy = this.y - mouseRef.current.y;
      const dist = Math.sqrt(dx * dx + dy * dy);
      const maxDist = 250;
      if (dist < maxDist && dist > 0) \x7b
        const force = (maxDist - dist) / maxDist;
        this.vx += (dx / dist) * force * 0.4;
        this.vy += (dy / dist) * force * 0.4;
      \x7d
    \x7d
    this.vx *= 0.96;  this.vy *= 0.96;
    if (this.x < 0) this.x = canvas.width;
    if (this.x > canvas.width) this.x = 0;
    if (this.y < 0) this.y = canvas.height;
    if (this.y > canvas.height) this.y = 0;

When the pointer is inactive the argument d is simply unused, exactly as the
source never computes dist in that case. -/
def Particle.updateWithDist (canvas : Canvas) (mouse : Mouse) (d : ℚ)
    (p : Particle) : Particle :=
  let x1 := p.x + p.vx
  let y1 := p.y + p.vy
  let dx := x1 - mouse.x
  let dy := y1 - mouse.y
  let force := (250 - d) / 250
  let vx1 := if mouse.active = true ∧ d < 250 ∧ 0 < d then
      p.vx + dx / d * force * 0.4 else p.vx
  let vy1 := if mouse.active = true ∧ d < 250 ∧ 0 < d then
      p.vy + dy / d * force * 0.4 else p.vy
  let vx2 := vx1 * 0.96
  let vy2 := vy1 * 0.96
  let x2 := if x1 < 0 then canvas.width else if canvas.width < x1 then 0 else x1
  let y2 := if y1 < 0 then canvas.height else if canvas.height < y1 then 0 else y1
  { p with x := x2, y := y2, vx := vx2, vy := vy2 }

/-- A run of consecutive frames: each entry supplies the pointer state of
that frame together with the square-root value d for that frame. -/
def Particle.updateSeq (canvas : Canvas) (steps : List (Mouse × ℚ))
    (p : Particle) : Particle :=
  steps.foldl (fun q s => Particle.updateWithDist canvas s.1 s.2 q) p

/-- Squared magnitude of the velocity vector.  Monotonicity of the velocity
magnitude is equivalent to monotonicity of its square. -/
def Particle.vmagSq (p : Particle) : ℚ := p.vx * p.vx + p.vy * p.vy

/-- Membership of the particle position in the closed box
[0, width] × [0, height]. -/
def Particle.InBox (c : Canvas) (p : Particle) : Prop :=
  0 ≤ p.x ∧ p.x ≤ c.width ∧ 0 ≤ p.y ∧ p.y ≤ c.height

instance instDecInBox (c : Canvas) (p : Particle) : Decidable (p.InBox c) :=
  inferInstanceAs (Decidable (0 ≤ p.x ∧ p.x ≤ c.width ∧ 0 ≤ p.y ∧ p.y ≤ c.height))

/-- Responsive particle count of ParticleBackground:
const count = window.innerWidth < 768 ? 60 : 150. -/
def baselineCount (innerWidth : ℕ) : ℕ := if innerWidth < 768 then 60 else 150

/-- Events that change the particle collection after initial population:
a burst pushes freshly constructed burst particles (the source pushes 50,
built with new Particle(true); their randomized contents are irrelevant to
the counting claims), and the 2000 ms setTimeout callback of the burst
effect runs particles.splice(count), which keeps the first count entries. -/
inductive BGEvent
  | burst (news : List Particle)
  | decayTimeout
deriving DecidableEq

/-- Effect of one BGEvent on the particle collection, with count the
baseline captured by the closure: particles.push(...) appends, and
particles.splice(count) truncates to the first count elements. -/
def bgStep (count : ℕ) (ps : List Particle) : BGEvent → List Particle
  | .burst news => ps ++ news
  | .decayTimeout => ps.take count

/-! ## Audio engine embedding -/

/-- Oscillator waveform, the osc.type field. -/
inductive Waveform
  | sine
  | square
  | sawtooth
  | triangle
deriving DecidableEq

/-- AudioContext.state, restricted to the two states the source inspects. -/
inductive CtxState
  | running
  | suspended
deriving DecidableEq

/-- Shape of a frequency sweep: exponentialRampToValueAtTime,
linearRampToValueAtTime, or no ramp at all (setValueAtTime only). -/
inductive RampKind
  | expRamp
  | linRamp
  | flat
deriving DecidableEq

/-- The JavaScript exception thrown by new AudioContext() when neither
window.AudioContext nor window.webkitAudioContext exists: calling new on
undefined raises a TypeError. -/
inductive JsError
  | typeError
deriving DecidableEq

/-- Sound-and-envelope data of one transient one-shot effect: the waveform,
the frequency sweep, the gain envelope endpoints, and the osc.start /
osc.stop offsets relative to ctx.currentTime. -/
structure OneShot where
  wave : Waveform
  startFreq : ℚ
  endFreq : ℚ
  freqRamp : RampKind
  gainStart : ℚ
  gainEnd : ℚ
  startOffset : ℚ
  stopOffset : ℚ
deriving DecidableEq

/-- An AudioParam holding a gain value, abstracted to an interval [lo, hi]
that contains every value the parameter can take over time.  A GainNode is
created with value 1; an assignment gain.value = v pins the interval to v;
setTargetAtTime(t) moves the value monotonically from wherever it currently
is toward t, so the reachable values stay inside the hull of the old
interval and the target. -/
structure GainParam where
  lo : ℚ
  hi : ℚ
deriving DecidableEq

/-- A gain parameter pinned at one value (creation default, or an
assignment gain.value = v). -/
def GainParam.const (v : ℚ) : GainParam := ⟨v, v⟩

/-- Effect of gain.setTargetAtTime(t, now, timeConstant) on the reachable
interval: hull of the old interval and the new target. -/
def GainParam.setTarget (g : GainParam) (t : ℚ) : GainParam :=
  ⟨min g.lo t, max g.hi t⟩

/-- Every value a possibly-absent gain parameter can take lies in [0, 1]. -/
def optWithin01 (o : Option GainParam) : Prop :=
  Option.elim o True (fun g => 0 ≤ g.lo ∧ g.hi ≤ 1)

instance instDecOptWithin01 : (o : Option GainParam) → Decidable (optWithin01 o)
  | none => .isTrue trivial
  | some g => inferInstanceAs (Decidable (0 ≤ g.lo ∧ g.hi ≤ 1))

/-- Mutable fields of the AudioEngine class (src/unnamed/part_001,
lines 27-143).  Graph nodes are present exactly when the corresponding
this.* field is non-null; the transient nodes of the click and hover
effects never live in fields and are returned separately as OneShot
values. -/
structure AudioEngine where
  ctx : Option CtxState
  masterGain : Option GainParam
  musicGain : Option GainParam
  sfxGain : Option GainParam
  droneGain : Option GainParam
  lfoGainValue : Option ℚ
  droneOscOn : Bool
  isMuted : Bool
  initialized : Bool
deriving DecidableEq

/-- The constructor: every node field null, isMuted and initialized
false. -/
def AudioEngine.new : AudioEngine :=
  ⟨none, none, none, none, none, none, false, false, false⟩

/-- startAmbience() (lines 62-92): does nothing when this.ctx is null;
otherwise builds the drone chain.  The drone gain value is set to
AUDIO_CONFIG.DRONE_GAIN = 0.05 and the LFO gain to AUDIO_CONFIG.LFO_GAIN
= 20.  The oscillator, filter and LFO carry no gain values of their own. -/
def AudioEngine.startAmbience (e : AudioEngine) : AudioEngine :=
  if e.ctx.isNone then e
  else { e with droneOscOn := true,
                droneGain := some (GainParam.const 0.05),
                lfoGainValue := some 20 }

/-- init() (lines 39-60).  api says whether window.AudioContext or
window.webkitAudioContext exists; st0 is the state the fresh context starts
in (browsers create it suspended outside a user gesture).  When api is
false, new AudioContext() is new undefined(), which throws a TypeError
before any field has been assigned.  Otherwise the three bus gains are
created (default gain value 1), initialized is set, and startAmbience runs.
No call to ctx.resume() appears anywhere in the class. -/
def AudioEngine.init (api : Bool) (st0 : CtxState) (e : AudioEngine) :
    Except JsError AudioEngine :=
  if e.initialized then .ok e
  else if api then
    .ok (AudioEngine.startAmbience
      { e with ctx := some st0,
               masterGain := some (GainParam.const 1),
               musicGain := some (GainParam.const 1),
               sfxGain := some (GainParam.const 1),
               initialized := true })
  else .error .typeError

/-- setVolumes(musicVol, sfxVol) (lines 94-100): early return when not
initialized; otherwise setTargetAtTime(vol / 100, now, 0.1) on each bus.
The arguments are not clamped by the method. -/
def AudioEngine.setVolumes (musicVol sfxVol : ℚ) (e : AudioEngine) : AudioEngine :=
  if e.initialized = false then e
  else { e with
    musicGain := e.musicGain.map (fun g => g.setTarget (musicVol / 100)),
    sfxGain := e.sfxGain.map (fun g => g.setTarget (sfxVol / 100)) }

/-- toggleMute() (lines 102-109): returns false without any change when not
initialized; otherwise flips isMuted, ramps the master gain toward 0 or 1,
and returns the new flag. -/
def AudioEngine.toggleMute (e : AudioEngine) : Bool × AudioEngine :=
  if e.initialized = false then (false, e)
  else
    (!e.isMuted,
     { e with isMuted := !e.isMuted,
              masterGain := e.masterGain.map
                (fun g => g.setTarget (if !e.isMuted then 0 else 1)) })

/-- playClickSound() (lines 111-126): nothing when uninitialized or muted;
otherwise a transient sawtooth oscillator sweeping exponentially from
CLICK_START_FREQ = 1200 down to CLICK_END_FREQ = 100, gain envelope 0.5
decaying to 0.01, started at t and stopped at t + 0.15. -/
def AudioEngine.playClickSound (e : AudioEngine) : Option OneShot :=
  if e.initialized = false ∨ e.isMuted = true then none
  else some ⟨.sawtooth, 1200, 100, .expRamp, 0.5, 0.01, 0, 0.15⟩

/-- playHoverSound() (lines 128-142): nothing when uninitialized or muted;
otherwise a transient square oscillator at fixed frequency
800 + Math.random() * 200 (r stands for the Math.random() draw), gain 0.05
decaying to 0.001, stopped at t + 0.05. -/
def AudioEngine.playHoverSound (r : ℚ) (e : AudioEngine) : Option OneShot :=
  if e.initialized = false ∨ e.isMuted = true then none
  else some ⟨.square, 800 + r * 200, 800 + r * 200, .flat, 0.05, 0.001, 0, 0.05⟩

/-- Operations that mutate the engine state, for invariance over arbitrary
call sequences.  The play operations return transient nodes but leave every
field untouched, so they act as the identity on the state. -/
inductive AudioOp
  | opInit (api : Bool) (st0 : CtxState)
  | opStartAmbience
  | opSetVolumes (musicVol sfxVol : ℚ)
  | opToggleMute
  | opPlayClick
  | opPlayHover (r : ℚ)
deriving DecidableEq

/-- State effect of one operation.  A throwing init (api unavailable)
leaves the state unchanged: the TypeError fires before any assignment. -/
def AudioEngine.runOp (e : AudioEngine) : AudioOp → AudioEngine
  | .opInit api st0 =>
      match e.init api st0 with
      | .ok e2 => e2
      | .error _ => e
  | .opStartAmbience => e.startAmbience
  | .opSetVolumes mv sv => e.setVolumes mv sv
  | .opToggleMute => (e.toggleMute).2
  | .opPlayClick => e
  | .opPlayHover _ => e

/-- State after a whole call sequence. -/
def AudioEngine.runOps (e : AudioEngine) (ops : List AudioOp) : AudioEngine :=
  ops.foldl AudioEngine.runOp e

/-- The four named gains of the claim - master, music bus, sfx bus, drone -
all stay within [0, 1]. -/
def AudioEngine.GainsIn01 (e : AudioEngine) : Prop :=
  optWithin01 e.masterGain ∧ optWithin01 e.musicGain ∧
  optWithin01 e.sfxGain ∧ optWithin01 e.droneGain

instance instDecGainsIn01 (e : AudioEngine) : Decidable (e.GainsIn01) :=
  inferInstanceAs (Decidable (_ ∧ _ ∧ _ ∧ _))

/-- setVolumes arguments within the 0-100 range that every caller in the
source supplies (the sliders clamp to Math.max(0, Math.min(100, pct))). -/
def volArgsClamped : AudioOp → Prop
  | .opSetVolumes mv sv => 0 ≤ mv ∧ mv ≤ 100 ∧ 0 ≤ sv ∧ sv ≤ 100
  | _ => True

instance instDecVolArgsClamped : (op : AudioOp) → Decidable (volArgsClamped op)
  | .opSetVolumes _ _ => inferInstanceAs (Decidable (_ ∧ _ ∧ _ ∧ _))
  | .opInit _ _ => .isTrue trivial
  | .opStartAmbience => .isTrue trivial
  | .opToggleMute => .isTrue trivial
  | .opPlayClick => .isTrue trivial
  | .opPlayHover _ => .isTrue trivial

/-! ## useSoundEngine hook embedding -/

/-- Sound kinds of useSoundEngine.playSound. -/
inductive SoundType
  | click
  | hover
  | scan
deriving DecidableEq

/-- ctx.resume() applied when ctx.state === suspended. -/
def resumeIfSuspended (st : CtxState) : CtxState :=
  if st = .suspended then .running else st

/-- initAudio of useSoundEngine as written in src/index.js (lines 12-20):
when the ref is empty it runs new AudioContext() WITHOUT checking that the
constructor exists, so it throws a TypeError when the platform audio API is
unavailable; afterwards it resumes a suspended context. -/
def initAudioIndex (api : Bool) (st0 : CtxState) (ctx : Option CtxState) :
    Except JsError (Option CtxState) :=
  match ctx with
  | none =>
      if api then .ok (some (resumeIfSuspended st0))
      else .error .typeError
  | some st => .ok (some (resumeIfSuspended st))

/-- initAudio of useSoundEngine as written in src/unnamed/part_002
(lines 12-22): the constructor lookup is guarded by if (AudioContext), so
with the API unavailable the ref stays empty and nothing throws; an
existing suspended context is resumed. -/
def initAudioGuarded (api : Bool) (st0 : CtxState) (ctx : Option CtxState) :
    Option CtxState :=
  match ctx with
  | none => if api then some (resumeIfSuspended st0) else none
  | some st => some (resumeIfSuspended st)

/-- playSound(type) of useSoundEngine (identical in src/index.js lines
22-62 and src/unnamed/part_002 lines 24-61): no-op while the context ref is
empty; otherwise one transient oscillator per call:
click  - square, 800 ramping exponentially up to 1200, gain volume * 0.5
         decaying to 0.01, stop at now + 0.05;
hover  - sine, 200 ramping linearly to 220, gain volume * 0.1 decaying
         linearly to 0, stop at now + 0.1;
scan   - sawtooth, 100 ramping linearly to 800, gain volume * 0.2 decaying
         to 0.01, stop at now + 0.2. -/
def playSound (volume : ℚ) (t : SoundType) (ctx : Option CtxState) : Option OneShot :=
  match ctx with
  | none => none
  | some _ =>
    match t with
    | .click => some ⟨.square, 800, 1200, .expRamp, volume * 0.5, 0.01, 0, 0.05⟩
    | .hover => some ⟨.sine, 200, 220, .linRamp, volume * 0.1, 0, 0, 0.1⟩
    | .scan => some ⟨.sawtooth, 100, 800, .linRamp, volume * 0.2, 0.01, 0, 0.2⟩

/-! ## Concrete values used by counterexamples and witnesses -/

/-- A 800 x 600 canvas. -/
def c86 : Canvas := ⟨800, 600⟩

/-- Inactive pointer at the origin. -/
def mInactive : Mouse := ⟨0, 0, false⟩

/-- Active pointer at the origin. -/
def mActive : Mouse := ⟨0, 0, true⟩

/-- Particle at (160, 0) heading toward the pointer at speed 60; its
integrated position (100, 0) is 100 px from the active pointer at the
origin. -/
def pC1 : Particle := ⟨160, 0, -60, 0, 1, 1⟩

/-- Particle resting at distance 100 from the origin. -/
def pW1 : Particle := ⟨100, 0, 0, 0, 1, 1⟩

/-- Particle on the left edge moving left: x + vx = -1 < 0. -/
def pC2 : Particle := ⟨0, 10, -1, 0, 1, 1⟩

/-- Particle strictly inside the 800 x 600 canvas. -/
def pW2 : Particle := ⟨5, 6, 1, 1, 1, 1⟩

/-- Particle with the active pointer sitting exactly on its integrated
position. -/
def pC9 : Particle := ⟨50, 50, 0, 0, 1, 1⟩

/-- Active pointer at (50, 50). -/
def mAt50 : Mouse := ⟨50, 50, true⟩

/-- The engine state produced by a first successful init call on a context
that the browser created in the suspended state. -/
def e1 : AudioEngine :=
  ⟨some .suspended, some (GainParam.const 1), some (GainParam.const 1),
   some (GainParam.const 1), some (GainParam.const 0.05), some 20,
   true, false, true⟩

/-- The one-shot scheduled by AudioEngine.playClickSound. -/
def clickShot : OneShot := ⟨.sawtooth, 1200, 100, .expRamp, 0.5, 0.01, 0, 0.15⟩

/-- A sample particle used to populate concrete collections. -/
def pFill : Particle := ⟨1, 2, 0, 0, 1, 1⟩

/-- The engine state produced by a first successful init call on a context
created in the running state. -/
def e0run : AudioEngine :=
  ⟨some .running, some (GainParam.const 1), some (GainParam.const 1),
   some (GainParam.const 1), some (GainParam.const 0.05), some 20,
   true, false, true⟩

/-! ## Helper lemmas: particle step -/

/-- One update step always lands in the closed box [0, width] × [0, height]
whatever the incoming state: the two trailing wrap conditionals send every
out-of-range coordinate to an endpoint of the interval. -/
theorem updateWithDist_inBox (c : Canvas) (hw : 0 ≤ c.width) (hh : 0 ≤ c.height)
    (m : Mouse) (d : ℚ) (p : Particle) :
    (Particle.updateWithDist c m d p).InBox c := by
  unfold Particle.updateWithDist Particle.InBox
  refine ⟨?_, ?_, ?_, ?_⟩ <;> dsimp only <;> split_ifs <;> linarith

/-- When the pointer branch is not taken, the step multiplies each velocity
component by the damping factor 0.96 and does nothing else to it. -/
theorem updateWithDist_velocity_damped (c : Canvas) (m : Mouse) (d : ℚ) (p : Particle)
    (h : ¬(m.active = true ∧ d < 250 ∧ 0 < d)) :
    (Particle.updateWithDist c m d p).vx = p.vx * 0.96 ∧
    (Particle.updateWithDist c m d p).vy = p.vy * 0.96 := by
  unfold Particle.updateWithDist
  dsimp only
  rw [if_neg h, if_neg h]
  exact ⟨rfl, rfl⟩

/-- With the pointer inactive one step scales the squared velocity
magnitude by 0.96², so it cannot grow. -/
theorem vmagSq_updateWithDist_le (c : Canvas) (m : Mouse) (d : ℚ) (p : Particle)
    (h : m.active = false) :
    (Particle.updateWithDist c m d p).vmagSq ≤ p.vmagSq := by
  have hn : ¬(m.active = true ∧ d < 250 ∧ 0 < d) := by simp [h]
  obtain ⟨hx, hy⟩ := updateWithDist_velocity_damped c m d p hn
  unfold Particle.vmagSq
  rw [hx, hy]
  nlinarith [mul_self_nonneg p.vx, mul_self_nonneg p.vy]

/-- Squared velocity magnitude never increases along a run of frames whose
pointer is inactive throughout. -/
theorem vmagSq_updateSeq_le (c : Canvas) (steps : List (Mouse × ℚ)) (p : Particle)
    (hsteps : ∀ s ∈ steps, (s.1).active = false) :
    (Particle.updateSeq c steps p).vmagSq ≤ p.vmagSq := by
  induction steps generalizing p with
  | nil => exact le_refl _
  | cons s rest ih =>
      have h1 : (s.1).active = false := hsteps s (List.mem_cons_self s rest)
      have h2 := vmagSq_updateWithDist_le c s.1 s.2 p h1
      exact le_trans
        (ih (Particle.updateWithDist c s.1 s.2 p)
          (fun t ht => hsteps t (List.mem_cons_of_mem s ht))) h2

/-! ## Claim C1 -/

/-- Claim C1 counterexample: a particle at (160, 0) moving at (-60, 0)
toward the active pointer at the origin integrates to (100, 0), distance
100 < 250 from the pointer; the update DECREASES its velocity magnitude
(3600 down to about 3291 squared), and the velocity change beyond damping
has a strictly negative component toward the pointer: the force pushes the
particle away from the pointer, not toward it. -/
theorem C1_counterexample :
    IsSqrt 100 (((pC1.x + pC1.vx) - mActive.x) * ((pC1.x + pC1.vx) - mActive.x) +
                ((pC1.y + pC1.vy) - mActive.y) * ((pC1.y + pC1.vy) - mActive.y)) ∧
    (0 : ℚ) < 100 ∧ (100 : ℚ) < 250 ∧
    (Particle.updateWithDist c86 mActive 100 pC1).vmagSq < pC1.vmagSq ∧
    ((Particle.updateWithDist c86 mActive 100 pC1).vx - pC1.vx * 0.96) *
        (mActive.x - (pC1.x + pC1.vx)) +
      ((Particle.updateWithDist c86 mActive 100 pC1).vy - pC1.vy * 0.96) *
        (mActive.y - (pC1.y + pC1.vy)) < 0 := by
  norm_num [IsSqrt, pC1, mActive, c86, Particle.updateWithDist, Particle.vmagSq]

/-- Claim C1, amended: for a particle whose integrated position lies at
distance d with 0 < d < 250 from the active pointer, the update adds -
before damping - a force of magnitude 0.4·(250−d)/250 along the vector
FROM THE POINTER TOWARD THE PARTICLE (a repulsion: its inner product with
particle − pointer is strictly positive), the magnitude strictly shrinking
as the distance grows; the final velocity is 0.96 times the forced
velocity, and its magnitude may decrease. -/
theorem C1_pointer_repulsion (c : Canvas) (m : Mouse) (d d2 : ℚ) (p : Particle)
    (hact : m.active = true)
    (hd : IsSqrt d (((p.x + p.vx) - m.x) * ((p.x + p.vx) - m.x) +
                    ((p.y + p.vy) - m.y) * ((p.y + p.vy) - m.y)))
    (h0 : 0 < d) (h250 : d < 250) (hd2 : d < d2) (h2502 : d2 < 250) :
    (Particle.updateWithDist c m d p).vx
      = (p.vx + ((p.x + p.vx) - m.x) / d * ((250 - d) / 250) * 0.4) * 0.96 ∧
    (Particle.updateWithDist c m d p).vy
      = (p.vy + ((p.y + p.vy) - m.y) / d * ((250 - d) / 250) * 0.4) * 0.96 ∧
    0 < (((p.x + p.vx) - m.x) / d * ((250 - d) / 250) * 0.4) * ((p.x + p.vx) - m.x)
      + (((p.y + p.vy) - m.y) / d * ((250 - d) / 250) * 0.4) * ((p.y + p.vy) - m.y) ∧
    (250 - d2) / 250 * 0.4 < (250 - d) / 250 * 0.4 := by
  have hcond : m.active = true ∧ d < 250 ∧ 0 < d := ⟨hact, h250, h0⟩
  have hdne : d ≠ 0 := ne_of_gt h0
  refine ⟨?_, ?_, ?_, ?_⟩
  · unfold Particle.updateWithDist
    dsimp only
    rw [if_pos hcond]
  · unfold Particle.updateWithDist
    dsimp only
    rw [if_pos hcond]
  · have hs : ((p.x + p.vx) - m.x) * ((p.x + p.vx) - m.x) +
        ((p.y + p.vy) - m.y) * ((p.y + p.vy) - m.y) = d * d := hd.2.symm
    have key : (((p.x + p.vx) - m.x) / d * ((250 - d) / 250) * 0.4) * ((p.x + p.vx) - m.x)
        + (((p.y + p.vy) - m.y) / d * ((250 - d) / 250) * 0.4) * ((p.y + p.vy) - m.y)
        = (250 - d) / 250 * 0.4 *
            ((((p.x + p.vx) - m.x) * ((p.x + p.vx) - m.x) +
              ((p.y + p.vy) - m.y) * ((p.y + p.vy) - m.y)) / d) := by
      ring
    rw [key, hs]
    have hcancel : d * d / d = d := by
      field_simp
    rw [hcancel]
    nlinarith
  · nlinarith

/-- Claim C1 witness: the amended statement instantiated at the particle
resting at (100, 0), pointer active at the origin, d = 100, d2 = 200. -/
theorem C1_pointer_repulsion_witness :
    (Particle.updateWithDist c86 mActive 100 pW1).vx
      = (pW1.vx + ((pW1.x + pW1.vx) - mActive.x) / 100 * ((250 - 100) / 250) * 0.4) * 0.96 ∧
    (Particle.updateWithDist c86 mActive 100 pW1).vy
      = (pW1.vy + ((pW1.y + pW1.vy) - mActive.y) / 100 * ((250 - 100) / 250) * 0.4) * 0.96 ∧
    0 < (((pW1.x + pW1.vx) - mActive.x) / 100 * ((250 - 100) / 250) * 0.4) *
          ((pW1.x + pW1.vx) - mActive.x)
      + (((pW1.y + pW1.vy) - mActive.y) / 100 * ((250 - 100) / 250) * 0.4) *
          ((pW1.y + pW1.vy) - mActive.y) ∧
    (250 - 200 : ℚ) / 250 * 0.4 < (250 - 100) / 250 * 0.4 :=
  C1_pointer_repulsion c86 mActive 100 200 pW1 rfl
    (by norm_num [IsSqrt, pW1, mActive])
    (by norm_num) (by norm_num) (by norm_num) (by norm_num)

/-! ## Claim C2 -/

/-- Claim C2 counterexample: the particle at (0, 10) with velocity (-1, 0)
starts inside the half-open box [0, 800) × [0, 600); one update moves it to
x = -1 < 0 and the wrap assigns x = canvas.width = 800, which is NOT inside
[0, 800): the half-open invariant of the claim fails after a single step. -/
theorem C2_counterexample :
    pC2.InBox c86 ∧ pC2.x < c86.width ∧ pC2.y < c86.height ∧
    ¬(Particle.updateWithDist c86 mInactive 0 pC2).x < c86.width := by
  norm_num [Particle.InBox, pC2, mInactive, c86, Particle.updateWithDist]

/-- Claim C2, amended: for every canvas with nonnegative dimensions and
every number of frames, a particle starting inside the CLOSED box
[0, width] × [0, height] stays inside that closed box: exiting one edge
re-enters at the opposite edge, landing exactly on the boundary coordinate
when it left through the low edge. -/
theorem C2_toroidal_wrap_closed (c : Canvas) (hw : 0 ≤ c.width) (hh : 0 ≤ c.height)
    (steps : List (Mouse × ℚ)) (p : Particle) (hp : p.InBox c) :
    (Particle.updateSeq c steps p).InBox c := by
  induction steps generalizing p with
  | nil => exact hp
  | cons s rest ih =>
      show (Particle.updateSeq c rest (Particle.updateWithDist c s.1 s.2 p)).InBox c
      exact ih (Particle.updateWithDist c s.1 s.2 p)
        (updateWithDist_inBox c hw hh s.1 s.2 p)

/-- Claim C2 witness: two frames on the 800 × 600 canvas starting from
(5, 6). -/
theorem C2_toroidal_wrap_closed_witness :
    (Particle.updateSeq c86 [(mInactive, 0), (mActive, 5)] pW2).InBox c86 :=
  C2_toroidal_wrap_closed c86 (by norm_num [c86]) (by norm_num [c86])
    [(mInactive, 0), (mActive, 5)] pW2 (by norm_num [Particle.InBox, pW2, c86])

/-! ## Claim C5 -/

/-- Claim C5: when the pointer force does not apply - pointer inactive, or
squared pointer distance at least 250² = 62500 - the step changes each
velocity component exactly by the damping factor 0.96; and along any run of
frames with the pointer inactive the squared velocity magnitude never
increases. -/
theorem C5_damping_only (c : Canvas) (m : Mouse) (d : ℚ) (p : Particle)
    (hd : IsSqrt d (((p.x + p.vx) - m.x) * ((p.x + p.vx) - m.x) +
                    ((p.y + p.vy) - m.y) * ((p.y + p.vy) - m.y)))
    (h : m.active = false ∨
         62500 ≤ ((p.x + p.vx) - m.x) * ((p.x + p.vx) - m.x) +
                 ((p.y + p.vy) - m.y) * ((p.y + p.vy) - m.y))
    (steps : List (Mouse × ℚ)) (hsteps : ∀ s ∈ steps, (s.1).active = false) :
    ((Particle.updateWithDist c m d p).vx = p.vx * 0.96 ∧
     (Particle.updateWithDist c m d p).vy = p.vy * 0.96) ∧
    (Particle.updateSeq c steps p).vmagSq ≤ p.vmagSq := by
  constructor
  · apply updateWithDist_velocity_damped
    rcases h with h | h
    · simp [h]
    · rintro ⟨-, h250, h0⟩
      have h1 := hd.1
      have h2 := hd.2
      nlinarith [mul_pos (show (0:ℚ) < 250 - d by linarith)
        (show (0:ℚ) < 250 + d by linarith)]
  · exact vmagSq_updateSeq_le c steps p hsteps

/-- Claim C5 witness: the particle resting at (100, 0), pointer inactive at
the origin, two inactive frames. -/
theorem C5_damping_only_witness :
    ((Particle.updateWithDist c86 mInactive 100 pW1).vx = pW1.vx * 0.96 ∧
     (Particle.updateWithDist c86 mInactive 100 pW1).vy = pW1.vy * 0.96) ∧
    (Particle.updateSeq c86 [(mInactive, 0), (mInactive, 0)] pW1).vmagSq ≤ pW1.vmagSq :=
  C5_damping_only c86 mInactive 100 pW1 (by norm_num [IsSqrt, pW1, mInactive])
    (Or.inl rfl) [(mInactive, 0), (mInactive, 0)] (by simp [mInactive])

/-! ## Claim C9 -/

/-- Claim C9: the pointer force of Particle.update is applied only when the
distance satisfies 0 < dist < 250.  In particular when the pointer sits
exactly on the integrated particle position (squared distance 0) the
velocities are only damped, so the divisions dx / dist and dy / dist are
never executed with dist = 0; and in every case the step either leaves the
velocity purely damped or 0 < d < 250 holds, making the divisor nonzero. -/
theorem C9_force_guard (c : Canvas) (m : Mouse) (d : ℚ) (p : Particle)
    (hd : IsSqrt d (((p.x + p.vx) - m.x) * ((p.x + p.vx) - m.x) +
                    ((p.y + p.vy) - m.y) * ((p.y + p.vy) - m.y))) :
    ((((p.x + p.vx) - m.x) * ((p.x + p.vx) - m.x) +
      ((p.y + p.vy) - m.y) * ((p.y + p.vy) - m.y) = 0) →
      (Particle.updateWithDist c m d p).vx = p.vx * 0.96 ∧
      (Particle.updateWithDist c m d p).vy = p.vy * 0.96) ∧
    (((Particle.updateWithDist c m d p).vx = p.vx * 0.96 ∧
      (Particle.updateWithDist c m d p).vy = p.vy * 0.96) ∨
     (m.active = true ∧ 0 < d ∧ d < 250)) := by
  constructor
  · intro hS
    apply updateWithDist_velocity_damped
    rintro ⟨-, -, h0⟩
    have hzero : d * d = 0 := hd.2.trans hS
    nlinarith
  · by_cases hc : m.active = true ∧ d < 250 ∧ 0 < d
    · exact Or.inr ⟨hc.1, hc.2.2, hc.2.1⟩
    · exact Or.inl (updateWithDist_velocity_damped c m d p hc)

/-- Claim C9 witness: pointer active exactly on the particle at (50, 50):
squared distance 0, velocities only damped. -/
theorem C9_force_guard_witness :
    ((Particle.updateWithDist c86 mAt50 0 pC9).vx = pC9.vx * 0.96 ∧
     (Particle.updateWithDist c86 mAt50 0 pC9).vy = pC9.vy * 0.96) ∧
    (((Particle.updateWithDist c86 mAt50 0 pC9).vx = pC9.vx * 0.96 ∧
      (Particle.updateWithDist c86 mAt50 0 pC9).vy = pC9.vy * 0.96) ∨
     (mAt50.active = true ∧ (0:ℚ) < 0 ∧ (0:ℚ) < 250)) :=
  ⟨(C9_force_guard c86 mAt50 0 pC9 (by norm_num [IsSqrt, pC9, mAt50])).1
      (by norm_num [pC9, mAt50]),
   (C9_force_guard c86 mAt50 0 pC9 (by norm_num [IsSqrt, pC9, mAt50])).2⟩

/-! ## Claim C3 -/

/-- The particle count never drops below the captured baseline along any
burst and decay sequence: bursts only push, and splice(count) keeps exactly
count elements whenever at least count are present. -/
theorem baseline_le_bgSteps (count : ℕ) :
    ∀ (events : List BGEvent) (ps : List Particle), count ≤ ps.length →
      count ≤ (events.foldl (bgStep count) ps).length := by
  intro events
  induction events with
  | nil => intro ps h; exact h
  | cons e rest ih =>
      intro ps h
      show count ≤ (rest.foldl (bgStep count) (bgStep count ps e)).length
      apply ih
      cases e with
      | burst news => simp [bgStep]; omega
      | decayTimeout => simp [bgStep]; omega

/-- Claim C3: whatever bursts and decay timeouts have interleaved, the
moment a decay timeout fires last, particles.splice(count) leaves exactly
the viewport-dependent baseline count of particles, starting from a
collection populated at that baseline.  This covers a second burst arriving
before the first timeout fires: its extra particles are removed by
whichever splice runs last. -/
theorem C3_burst_decay_restores_baseline (w : ℕ) (ps0 : List Particle)
    (es : List BGEvent) (hbase : ps0.length = baselineCount w) :
    ((es ++ [BGEvent.decayTimeout]).foldl (bgStep (baselineCount w)) ps0).length
      = baselineCount w := by
  rw [List.foldl_append]
  have h := baseline_le_bgSteps (baselineCount w) es ps0 (le_of_eq hbase.symm)
  simp [bgStep]
  omega

/-- Claim C3 witness: a 1024 px viewport (baseline 150), two overlapping
bursts of 50 particles each followed by the two decay timeouts. -/
theorem C3_burst_decay_restores_baseline_witness :
    (([BGEvent.burst (List.replicate 50 pFill),
       BGEvent.burst (List.replicate 50 pFill),
       BGEvent.decayTimeout] ++ [BGEvent.decayTimeout]).foldl
        (bgStep (baselineCount 1024)) (List.replicate 150 pFill)).length
      = baselineCount 1024 :=
  C3_burst_decay_restores_baseline 1024 (List.replicate 150 pFill)
    [BGEvent.burst (List.replicate 50 pFill),
     BGEvent.burst (List.replicate 50 pFill),
     BGEvent.decayTimeout]
    (by simp [baselineCount])

/-! ## Claim C10 -/

/-- Claim C10: on an engine whose init has not succeeded, setVolumes,
toggleMute, playClickSound and playHoverSound all return immediately
without touching any field, and toggleMute reports false. -/
theorem C10_uninitialized_noop (e : AudioEngine) (h : e.initialized = false)
    (mv sv r : ℚ) :
    e.setVolumes mv sv = e ∧ e.toggleMute = (false, e) ∧
    e.playClickSound = none ∧ e.playHoverSound r = none := by
  unfold AudioEngine.setVolumes AudioEngine.toggleMute AudioEngine.playClickSound
    AudioEngine.playHoverSound
  rw [h]
  simp

/-- Claim C10 witness: the freshly constructed engine. -/
theorem C10_uninitialized_noop_witness :
    AudioEngine.new.setVolumes 10 20 = AudioEngine.new ∧
    AudioEngine.new.toggleMute = (false, AudioEngine.new) ∧
    AudioEngine.new.playClickSound = none ∧
    AudioEngine.new.playHoverSound 0 = none :=
  C10_uninitialized_noop AudioEngine.new rfl 10 20 0

/-! ## Claim C4 -/

/-- Claim C4 counterexample: with neither window.AudioContext nor
window.webkitAudioContext present, AudioEngine.init runs new undefined(),
which throws a TypeError rather than returning normally as a no-op; no
try/catch surrounds it in the class or in its caller. -/
theorem C4_counterexample :
    AudioEngine.new.init false .running = .error .typeError := by
  rfl

/-- Claim C4, amended: when the platform audio API is unavailable the
engine stays uninitialized, and then startAmbience, setVolumes, toggleMute,
playClickSound and playHoverSound are all no-ops returning normally, and
the guarded part_002 hook initAudio also degrades to a no-op — but
AudioEngine.init itself (like the index.js initAudio) throws a TypeError
instead of being a no-op. -/
theorem C4_degraded_noop (e : AudioEngine) (hctx : e.ctx = none)
    (hinit : e.initialized = false) (mv sv r : ℚ) (st0 : CtxState) :
    e.startAmbience = e ∧ e.setVolumes mv sv = e ∧ e.toggleMute = (false, e) ∧
    e.playClickSound = none ∧ e.playHoverSound r = none ∧
    initAudioGuarded false st0 none = none ∧
    e.init false st0 = .error .typeError := by
  unfold AudioEngine.startAmbience AudioEngine.setVolumes AudioEngine.toggleMute
    AudioEngine.playClickSound AudioEngine.playHoverSound initAudioGuarded
    AudioEngine.init
  rw [hctx, hinit]
  simp

/-- Claim C4 witness: the freshly constructed engine with the API
unavailable. -/
theorem C4_degraded_noop_witness :
    AudioEngine.new.startAmbience = AudioEngine.new ∧
    AudioEngine.new.setVolumes 10 20 = AudioEngine.new ∧
    AudioEngine.new.toggleMute = (false, AudioEngine.new) ∧
    AudioEngine.new.playClickSound = none ∧
    AudioEngine.new.playHoverSound 0 = none ∧
    initAudioGuarded false .running none = none ∧
    AudioEngine.new.init false .running = .error .typeError :=
  C4_degraded_noop AudioEngine.new rfl rfl 10 20 0 .running

/-! ## Claim C7 -/

/-- Claim C7 counterexample: a first init on a context the browser created
suspended leaves the context suspended, and a second init call returns with
the engine unchanged — the context is still suspended, so init does NOT
resume a suspended context on every call. -/
theorem C7_counterexample :
    AudioEngine.new.init true .suspended = .ok e1 ∧
    e1.ctx = some .suspended ∧
    e1.init true .running = .ok e1 := by
  refine ⟨rfl, rfl, rfl⟩

/-- Claim C7, amended: AudioEngine.init is idempotent — any further call
after a successful one returns the engine unchanged, creating no second
context and no nodes — but it never resumes the context; resumption of a
suspended context on every call is done only by the useSoundEngine
initAudio, which also creates no second context once one exists. -/
theorem C7_init_idempotent (e e2 : AudioEngine) (api api2 : Bool)
    (st0 st1 st : CtxState) (h : e.init api st0 = .ok e2) :
    e2.init api2 st1 = .ok e2 ∧
    initAudioIndex api2 st1 (some st) = .ok (some (resumeIfSuspended st)) ∧
    resumeIfSuspended CtxState.suspended = CtxState.running := by
  have hinit : e2.initialized = true := by
    unfold AudioEngine.init at h
    split_ifs at h with h1 h2
    · injection h with h
      subst h
      exact h1
    · injection h with h
      subst h
      unfold AudioEngine.startAmbience
      split_ifs <;> rfl
  refine ⟨?_, rfl, rfl⟩
  unfold AudioEngine.init
  rw [if_pos hinit]

/-- Claim C7 witness: the engine initialized on a running context. -/
theorem C7_init_idempotent_witness :
    e0run.init true .running = .ok e0run ∧
    initAudioIndex true .running (some .suspended)
      = .ok (some (resumeIfSuspended .suspended)) ∧
    resumeIfSuspended CtxState.suspended = CtxState.running :=
  C7_init_idempotent AudioEngine.new e0run true true .running .running .suspended rfl

/-! ## Claim C8 -/

/-- Claim C8 counterexample: AudioEngine.playClickSound synthesizes a
SAWTOOTH (not square) with a FALLING sweep (1200 down to 100) and schedules
its oscillator stop 150 ms after the start, not about 50 ms. -/
theorem C8_counterexample :
    e1.playClickSound = some clickShot ∧
    clickShot.wave ≠ Waveform.square ∧
    clickShot.endFreq < clickShot.startFreq ∧
    clickShot.stopOffset = 0.15 := by
  refine ⟨rfl, by simp [clickShot], by norm_num [clickShot], rfl⟩

/-- Claim C8, amended: the useSoundEngine click — playSound with the click
kind — is a square wave ramping exponentially upward from 800 to 1200 with
its stop scheduled 50 ms after its start, while AudioEngine.playClickSound
is a sawtooth ramping down from 1200 to 100 with its stop scheduled 150 ms
after its start; both stops lie strictly after the start and at most 150 ms
later. -/
theorem C8_click_shapes (e : AudioEngine) (hinit : e.initialized = true)
    (hm : e.isMuted = false) (vol : ℚ) (st : CtxState) :
    e.playClickSound = some clickShot ∧
    playSound vol .click (some st)
      = some ⟨.square, 800, 1200, .expRamp, vol * 0.5, 0.01, 0, 0.05⟩ ∧
    clickShot.startOffset < clickShot.stopOffset ∧
    clickShot.stopOffset ≤ 0.15 ∧
    (0 : ℚ) < 0.05 ∧ (800 : ℚ) < 1200 := by
  unfold AudioEngine.playClickSound playSound
  rw [hinit, hm]
  norm_num [clickShot]

/-- Claim C8 witness: the initialized unmuted engine, volume 1, running
context. -/
theorem C8_click_shapes_witness :
    e1.playClickSound = some clickShot ∧
    playSound 1 .click (some .running)
      = some ⟨.square, 800, 1200, .expRamp, 1 * 0.5, 0.01, 0, 0.05⟩ ∧
    clickShot.startOffset < clickShot.stopOffset ∧
    clickShot.stopOffset ≤ 0.15 ∧
    (0 : ℚ) < 0.05 ∧ (800 : ℚ) < 1200 :=
  C8_click_shapes e1 rfl rfl 1 .running

/-! ## Claim C6 -/

/-- A setTargetAtTime call with a target inside [0, 1] keeps the reachable
gain interval inside [0, 1]. -/
theorem optWithin01_setTarget {o : Option GainParam} (ho : optWithin01 o)
    {t : ℚ} (ht0 : 0 ≤ t) (ht1 : t ≤ 1) :
    optWithin01 (o.map (fun g => g.setTarget t)) := by
  cases o with
  | none => trivial
  | some g => exact ⟨le_min ho.1 ht0, max_le ho.2 ht1⟩

/-- A successful init leaves every tracked gain inside [0, 1]: the three
bus gains are created at the default value 1 and the drone gain is set to
0.05. -/
theorem gainsIn01_init {e e2 : AudioEngine} (he : e.GainsIn01) {api : Bool}
    {st0 : CtxState} (h : e.init api st0 = .ok e2) : e2.GainsIn01 := by
  unfold AudioEngine.init at h
  split_ifs at h with h1 h2
  · injection h with h
    subst h
    exact he
  · injection h with h
    subst h
    unfold AudioEngine.startAmbience
    split_ifs
    · exact ⟨by norm_num [optWithin01, GainParam.const],
             by norm_num [optWithin01, GainParam.const],
             by norm_num [optWithin01, GainParam.const], he.2.2.2⟩
    · exact ⟨by norm_num [optWithin01, GainParam.const],
             by norm_num [optWithin01, GainParam.const],
             by norm_num [optWithin01, GainParam.const],
             by norm_num [optWithin01, GainParam.const]⟩

/-- Any single operation whose setVolumes arguments are within 0-100
preserves the [0, 1] bound on all four tracked gains. -/
theorem gainsIn01_runOp {e : AudioEngine} (he : e.GainsIn01) (op : AudioOp)
    (hop : volArgsClamped op) : (e.runOp op).GainsIn01 := by
  cases op with
  | opInit api st0 =>
      show (match e.init api st0 with
            | .ok e2 => e2
            | .error _ => e).GainsIn01
      cases hE : e.init api st0 with
      | ok e2 => exact gainsIn01_init he hE
      | error err => exact he
  | opStartAmbience =>
      show e.startAmbience.GainsIn01
      unfold AudioEngine.startAmbience
      split_ifs
      · exact he
      · exact ⟨he.1, he.2.1, he.2.2.1, by norm_num [optWithin01, GainParam.const]⟩
  | opSetVolumes mv sv =>
      show (e.setVolumes mv sv).GainsIn01
      unfold AudioEngine.setVolumes
      split_ifs with h
      · exact he
      · obtain ⟨hm0, hm1, hs0, hs1⟩ := hop
        refine ⟨he.1, ?_, ?_, he.2.2.2⟩
        · exact optWithin01_setTarget he.2.1 (by positivity)
            ((div_le_one (by norm_num)).mpr hm1)
        · exact optWithin01_setTarget he.2.2.1 (by positivity)
            ((div_le_one (by norm_num)).mpr hs1)
  | opToggleMute =>
      show (e.toggleMute).2.GainsIn01
      unfold AudioEngine.toggleMute
      split_ifs with h hm
      · exact he
      · exact ⟨optWithin01_setTarget he.1 (by norm_num) (by norm_num),
               he.2.1, he.2.2.1, he.2.2.2⟩
      · exact ⟨optWithin01_setTarget he.1 (by norm_num) (by norm_num),
               he.2.1, he.2.2.1, he.2.2.2⟩
  | opPlayClick => exact he
  | opPlayHover r => exact he

/-- Gains stay bounded along whole call sequences. -/
theorem gainsIn01_runOps {e : AudioEngine} (he : e.GainsIn01) (ops : List AudioOp)
    (hops : ∀ op ∈ ops, volArgsClamped op) : (e.runOps ops).GainsIn01 := by
  induction ops generalizing e with
  | nil => exact he
  | cons op rest ih =>
      show ((e.runOp op).runOps rest).GainsIn01
      exact ih (gainsIn01_runOp he op (hops op (List.mem_cons_self op rest)))
        (fun t ht => hops t (List.mem_cons_of_mem op ht))

/-- Claim C6, amended: starting from the fresh engine, after any sequence
of init, startAmbience, setVolumes, toggleMute and play operations in which
every setVolumes call receives arguments within 0-100 — which is what every
caller in the source supplies, the sliders clamping to that range — the
master, music bus, sfx bus and drone gains all stay within [0, 1]. -/
theorem C6_gains_clamped (ops : List AudioOp)
    (hops : ∀ op ∈ ops, volArgsClamped op) :
    (AudioEngine.new.runOps ops).GainsIn01 :=
  @gainsIn01_runOps AudioEngine.new ⟨trivial, trivial, trivial, trivial⟩ ops hops

/-- Claim C6 counterexample: setVolumes(200, 50) — numeric arguments the
claim explicitly admits — drives the music bus gain toward 2, so its
reachable values leave [0, 1]. -/
theorem C6_counterexample :
    ¬(AudioEngine.new.runOps
        [.opInit true .running, .opSetVolumes 200 50]).GainsIn01 := by
  intro h
  have h2 := h.2.1
  norm_num [AudioEngine.runOps, AudioEngine.runOp, AudioEngine.new,
    AudioEngine.init, AudioEngine.startAmbience, AudioEngine.setVolumes,
    optWithin01, GainParam.const, GainParam.setTarget] at h2

/-- Claim C6 witness: init, a clamped setVolumes(50, 80), a mute toggle and
a click. -/
theorem C6_gains_clamped_witness :
    (AudioEngine.new.runOps
        [.opInit true .running, .opSetVolumes 50 80, .opToggleMute,
         .opPlayClick]).GainsIn01 :=
  C6_gains_clamped
    [.opInit true .running, .opSetVolumes 50 80, .opToggleMute, .opPlayClick]
    (by
      intro op hop
      fin_cases hop <;> norm_num [volArgsClamped])

end CyberpunkSettings
